import Mathlib

/-!
Shallow embedding of the multi-tenant SaaS platform core
(`src/lambda/tenant_management`, `src/lambda/billing`,
`src/lambda/onboarding`, `src/utils/metrics.py`) in Lean 4.

External collaborators (DynamoDB, SQS, Cognito, CloudWatch) are modelled
by their documented behaviour at exactly the call shapes the source uses:
the DynamoDB tables as partial maps, the metric backend and the Cognito
calls as success/failure outcomes supplied as parameters.  Python
exceptions become `Except` values; the `try/except` blocks of the source
become the corresponding case analyses.  JSON response bodies are kept
structured (one constructor per `json.dumps` shape in the handlers).
-/

namespace SaaS

/-- Python exception values raised along the modelled paths.
`str(e)` of each is rendered by `PyErr.text`. -/
inductive PyErr where
  | valueError : String → PyErr
  | nameError : String → PyErr
  | keyError : String → PyErr
  | clientError : String → PyErr
  deriving DecidableEq, Repr

/-- The text `str(e)` interpolated into handler 500-bodies. -/
def PyErr.text : PyErr → String
  | .valueError m => m
  | .nameError n => "name " ++ n ++ " is not defined"
  | .keyError k => k
  | .clientError m => m

/-- A (string → string) dictionary lookup, `d.get(k)` in Python. -/
def dictGet (m : List (String × String)) (k : String) : Option String :=
  (m.find? (fun p => p.1 == k)).map (fun p => p.2)

/-- `d[k]` in Python: raises `KeyError` on a missing key. -/
def dictIndex (m : List (String × String)) (k : String) : Except PyErr String :=
  match dictGet m k with
  | some v => .ok v
  | none => .error (.keyError k)

/-- The Python substring test `pat in s`. -/
def strContains (s pat : String) : Bool :=
  decide (pat.toList <:+: s.toList)

/-! ## Metrics (`src/utils/metrics.py`)

`MetricsCollector._put_metric` wraps `cloudwatch.put_metric_data` in a
`try/except Exception` that only logs, so a metric-backend failure never
escapes.  The backend is modelled by a boolean `backendOk`; the collector
state is the list of metric names successfully published. -/

/-- `cloudwatch.put_metric_data`: the external CloudWatch call; fails when
the backend is unavailable. -/
def put_metric_data (backendOk : Bool) (name : String) : Except String Unit :=
  if backendOk then .ok () else .error ("CloudWatch unavailable: " ++ name)

/-- `MetricsCollector._put_metric`: try to publish; on any exception, log
and return normally (the exception is swallowed). -/
def putMetric (backendOk : Bool) (published : List String) (name : String) :
    List String :=
  match put_metric_data backendOk name with
  | .ok _ => published ++ [name]
  | .error _ => published

/-- `MetricsCollector.record_error`. -/
def record_error (ok : Bool) (pub : List String) : List String :=
  putMetric ok pub "Errors"

/-- `MetricsCollector.record_data_access_success`. -/
def record_data_access_success (ok : Bool) (pub : List String) : List String :=
  putMetric ok pub "DataAccessSuccess"

/-- `MetricsCollector.record_data_access_failure`. -/
def record_data_access_failure (ok : Bool) (pub : List String) : List String :=
  putMetric ok pub "DataAccessFailure"

/-- `MetricsCollector.record_billing_update`. -/
def record_billing_update (ok : Bool) (pub : List String) : List String :=
  putMetric ok pub "BillingUpdates"

/-- `MetricsCollector.record_onboarding_success`. -/
def record_onboarding_success (ok : Bool) (pub : List String) : List String :=
  putMetric ok pub "OnboardingSuccess"

/-! ## Tenant data store (`src/lambda/tenant_management/tenant_service.py`)

The DynamoDB table `saas-tenant-data` is keyed by
`(tenant_id, item_id)`; the only other attribute ever written is the
serialized `data` string, so the table is a partial map from the key pair
to that string. -/

/-- A DynamoDB item of the tenant-data table, as returned by `get_item`. -/
structure TenantItem where
  tenant_id : String
  item_id : String
  data : String
  deriving DecidableEq, Repr

/-- The tenant-data table: `(tenant_id, item_id) ↦ data`. -/
abbrev TenantDB := String → String → Option String

/-- `dynamodb.get_item` on the tenant-data table. -/
def ddbGetItem (db : TenantDB) (tid iid : String) : Option TenantItem :=
  (db tid iid).map (fun d => ⟨tid, iid, d⟩)

/-- `dynamodb.put_item` on the tenant-data table (unconditional overwrite). -/
def ddbPutItem (db : TenantDB) (tid iid data : String) : TenantDB :=
  fun t i => if t = tid ∧ i = iid then some data else db t i

/-- Cognito user claims, `event.requestContext.authorizer.claims`
(a string-keyed map; `user.get("tenant_id")` may be absent). -/
abbrev Claims := List (String × String)

/-- `TenantService.get_tenant_data`: the tenant-mismatch check precedes the
store read; a mismatch raises `ValueError("Unauthorized tenant access")`,
which the method-level `except` re-raises after `record_error`.  A missing
item records a data-access failure and returns `None`. -/
def get_tenant_data (ok : Bool) (db : TenantDB) (tenant_id item_id : String)
    (user : Claims) (pub : List String) :
    Except PyErr (Option TenantItem) × List String :=
  if dictGet user "tenant_id" ≠ some tenant_id then
    (.error (.valueError "Unauthorized tenant access"), record_error ok pub)
  else
    match ddbGetItem db tenant_id item_id with
    | none => (.ok none, record_data_access_failure ok pub)
    | some item => (.ok (some item), record_data_access_success ok pub)

/-- `TenantService.store_tenant_data`: after the tenant-mismatch check the
method evaluates `json.dumps(data)` while building the `put_item`
arguments — but `tenant_service.py` never imports `json`, so this raises
`NameError` before any store write; the `except` records the error metric
and re-raises.  The store is returned unchanged on every path. -/
def store_tenant_data (ok : Bool) (db : TenantDB) (tenant_id item_id : String)
    (data : String) (user : Claims) (pub : List String) :
    Except PyErr Unit × TenantDB × List String :=
  if dictGet user "tenant_id" ≠ some tenant_id then
    (.error (.valueError "Unauthorized tenant access"), db, record_error ok pub)
  else
    (.error (.nameError "json"), db, record_error ok pub)

/-! ## Tenant management handler
(`src/lambda/tenant_management/handler.py`) -/

/-- Structured response bodies, one constructor per `json.dumps` shape the
handlers produce. -/
inductive Body where
  | errorMsg : String → Body
  | message : String → Body
  | item : TenantItem → Body
  | summary : String → Int → ℚ → Body
  | tenantId : String → Body
  deriving DecidableEq, Repr

/-- An API Gateway response `{"statusCode": ..., "body": ...}`. -/
structure Response where
  statusCode : Nat
  body : Body
  deriving DecidableEq, Repr

/-- The parsed POST body for the data-write route
(`json.loads(event["body"])` with its `item_id` and `data` fields);
`none` stands for a missing/unparseable body, which raises inside the
handler try-block. -/
structure StoreBody where
  item_id : String
  data : String
  deriving DecidableEq, Repr

/-- An API Gateway event as the tenant-management handler reads it. -/
structure ApiEvent where
  httpMethod : String
  path : String
  pathParameters : List (String × String)
  claims : Claims
  storeBody : Option StoreBody

/-- Route pattern of the data-read branch (`"/tenants/{tenant_id}/data/{item_id}" in path`). -/
def routeGetData : String := "/tenants/\x7btenant_id\x7d/data/\x7bitem_id\x7d"

/-- Route pattern of the data-write branch (`"/tenants/{tenant_id}/data" in path`). -/
def routePostData : String := "/tenants/\x7btenant_id\x7d/data"

/-- Result of one tenant-management handler invocation. -/
structure TenantOut where
  response : Response
  db : TenantDB
  pub : List String

/-- `lambda_handler` of the tenant-management Lambda: routes on method and
path substring; any exception reaching the handler try-block is answered
with status 500 and body `{"error": str(e)}` after `record_error`. -/
def tenant_lambda_handler (ok : Bool) (ev : ApiEvent) (db : TenantDB)
    (pub : List String) : TenantOut :=
  if ev.httpMethod == "GET" && strContains ev.path routeGetData then
    match dictIndex ev.pathParameters "tenant_id",
          dictIndex ev.pathParameters "item_id" with
    | .ok tid, .ok iid =>
      match get_tenant_data ok db tid iid ev.claims pub with
      | (.error e, pub1) => ⟨⟨500, .errorMsg e.text⟩, db, record_error ok pub1⟩
      | (.ok none, pub1) => ⟨⟨404, .errorMsg "Item not found"⟩, db, pub1⟩
      | (.ok (some it), pub1) => ⟨⟨200, .item it⟩, db, pub1⟩
    | .error e, _ => ⟨⟨500, .errorMsg e.text⟩, db, record_error ok pub⟩
    | _, .error e => ⟨⟨500, .errorMsg e.text⟩, db, record_error ok pub⟩
  else if ev.httpMethod == "POST" && strContains ev.path routePostData then
    match dictIndex ev.pathParameters "tenant_id" with
    | .error e => ⟨⟨500, .errorMsg e.text⟩, db, record_error ok pub⟩
    | .ok tid =>
      match ev.storeBody with
      | none => ⟨⟨500, .errorMsg "body"⟩, db, record_error ok pub⟩
      | some b =>
        match store_tenant_data ok db tid b.item_id b.data ev.claims pub with
        | (.error e, db1, pub1) =>
          ⟨⟨500, .errorMsg e.text⟩, db1, record_error ok pub1⟩
        | (.ok _, db1, pub1) =>
          ⟨⟨201, .message "Data stored"⟩, db1,
            record_data_access_success ok pub1⟩
  else
    ⟨⟨400, .errorMsg "Invalid request"⟩, db, pub⟩

/-! ## Billing (`src/lambda/billing/billing_service.py`)

The billing table `saas-billing` is keyed by `tenant_id`; the only
attribute ever referenced is the number `usage_count`, so the table is a
partial map `tenant_id ↦ usage_count`. -/

/-- The billing table: `tenant_id ↦ usage_count`. -/
abbrev BillingDB := String → Option Int

/-- Decimal digit value of a character, if any. -/
def digit? (c : Char) : Option Nat :=
  let n := c.toNat
  if 48 ≤ n ∧ n ≤ 57 then some (n - 48) else none

/-- Accumulate a decimal numeral; fails on any non-digit character. -/
def parseNatCore : List Char → Nat → Option Nat
  | [], acc => some acc
  | c :: rest, acc =>
    match digit? c with
    | none => none
    | some d => parseNatCore rest (acc * 10 + d)

/-- Integer parsing of a DynamoDB `N` attribute value (also Python
`int(...)` on the same strings): an optional leading minus sign followed
by decimal digits; anything else is rejected. -/
def parseIntD (s : String) : Option Int :=
  match s.toList with
  | [] => none
  | '-' :: rest =>
    match rest with
    | [] => none
    | _ => (parseNatCore rest 0).map (fun n => -(n : Int))
  | cs => (parseNatCore cs 0).map (fun n => (n : Int))

/-- `dynamodb.update_item` with
`UpdateExpression "SET usage_count = usage_count + :val"` and
`:val = {"N": valN}`.  Per DynamoDB semantics this call fails with a
`ValidationException` when `valN` is not a number, and also when the
expression path `usage_count` refers to an attribute that does not exist
(a missing item or a missing attribute): `SET a = a + :v` does not treat
an absent `a` as `0`. -/
def updateItemAddUsage (bt : BillingDB) (tid : String) (valN : String) :
    Except PyErr BillingDB :=
  match parseIntD valN with
  | none =>
    .error (.clientError
      "ValidationException: A value provided cannot be converted into a number")
  | some d =>
    match bt tid with
    | none =>
      .error (.clientError
        "ValidationException: The provided expression refers to an attribute that does not exist in the item")
    | some cur => .ok (fun t => if t = tid then some (cur + d) else bt t)

/-- One DynamoDB-stream record as the billing handler reads it:
`record["eventName"]`, `record["dynamodb"]["Keys"]["tenant_id"]["S"]` and
`record["dynamodb"]["NewImage"]["usage"]["N"]` (the latter may be absent). -/
structure StreamRecord where
  eventName : String
  keyTenantId : String
  usageN : Option String
  deriving DecidableEq, Repr

/-- `record.get("NewImage", {}).get("usage", {}).get("N", "0")`. -/
def usageString (rec : StreamRecord) : String :=
  rec.usageN.getD "0"

/-- The SQS billing queue, as the list of `{tenant_id, usage}` messages sent. -/
abbrev Queue := List (String × Int)

/-- Result of one `track_usage` / stream-processing step. -/
structure BillingState where
  bt : BillingDB
  q : Queue
  pub : List String

/-- `BillingService.track_usage`: extract the usage delta (default `"0"`),
atomically add it to the tenant's counter, then send the SQS message; on
any exception, record the error metric and re-raise. -/
def track_usage (ok : Bool) (st : BillingState) (tid : String)
    (rec : StreamRecord) : Except PyErr Unit × BillingState :=
  let usage := usageString rec
  match updateItemAddUsage st.bt tid usage with
  | .error e => (.error e, ⟨st.bt, st.q, record_error ok st.pub⟩)
  | .ok bt1 =>
    (.ok (), ⟨bt1, st.q ++ [(tid, (parseIntD usage).getD 0)],
      record_billing_update ok st.pub⟩)

/-- The stream loop of the billing `lambda_handler`: for each record with
`eventName` in `{INSERT, MODIFY}` call `track_usage`; an exception raised
by `track_usage` propagates out of the `for` loop, aborting the remaining
records. -/
def processRecords (ok : Bool) (st : BillingState) :
    List StreamRecord → Except PyErr Unit × BillingState
  | [] => (.ok (), st)
  | rec :: rest =>
    if rec.eventName == "INSERT" || rec.eventName == "MODIFY" then
      match track_usage ok st rec.keyTenantId rec with
      | (.error e, st1) => (.error e, st1)
      | (.ok _, st1) => processRecords ok st1 rest
    else
      processRecords ok st rest

/-- Round a rational to 2 decimal places, the `round(x, 2)` of
`get_billing_summary` (the module arithmetic is carried out exactly over
`ℚ`; ties round half-up here, a tie direction the contract leaves open). -/
def round2 (x : ℚ) : ℚ :=
  ((round (x * 100) : ℤ) : ℚ) / 100

/-- A billing summary `{tenant_id, usage_count, total_cost}`. -/
structure BillingSummary where
  tenant_id : String
  usage_count : Int
  total_cost : ℚ
  deriving DecidableEq, Repr

/-- `BillingService.get_billing_summary`: read the counter item, defaulting
the `usage_count` attribute to `"0"` when the item is absent, and compute
`total_cost = round(usage_count * cost_per_unit, 2)`.
`cost_per_unit` is `config.get("billing.cost_per_unit", 0.01)`, injected
here as a parameter. -/
def get_billing_summary (bt : BillingDB) (tid : String) (cpu : ℚ) :
    BillingSummary :=
  let usage_count := (bt tid).getD 0
  ⟨tid, usage_count, round2 ((usage_count : ℚ) * cpu)⟩

/-! ## Billing handler (`src/lambda/billing/handler.py`) -/

/-- Route pattern of the billing read (`"/billing/{tenant_id}" in path`). -/
def routeBilling : String := "/billing/\x7btenant_id\x7d"

/-- A billing Lambda event: either a DynamoDB-stream batch
(`"Records" in event`) or an API Gateway request. -/
inductive BillingEvent where
  | stream : List StreamRecord → BillingEvent
  | api : String → String → List (String × String) → Claims → BillingEvent

/-- Result of one billing handler invocation. -/
structure BillingOut where
  response : Response
  st : BillingState

/-- `lambda_handler` of the billing Lambda: stream batches are processed
record by record (an exception aborts the loop and is answered with 500
and `{"error": str(e)}` after `record_error`); the API branch returns 403
before reading the counter when the caller claims a different tenant. -/
def billing_lambda_handler (ok : Bool) (ev : BillingEvent) (st : BillingState)
    (cpu : ℚ) : BillingOut :=
  match ev with
  | .stream recs =>
    match processRecords ok st recs with
    | (.error e, st1) =>
      ⟨⟨500, .errorMsg e.text⟩, ⟨st1.bt, st1.q, record_error ok st1.pub⟩⟩
    | (.ok _, st1) => ⟨⟨200, .message "Usage processed"⟩, st1⟩
  | .api httpMethod path pathParameters claims =>
    if httpMethod == "GET" && strContains path routeBilling then
      match dictIndex pathParameters "tenant_id" with
      | .error e =>
        ⟨⟨500, .errorMsg e.text⟩, ⟨st.bt, st.q, record_error ok st.pub⟩⟩
      | .ok tid =>
        if dictGet claims "tenant_id" ≠ some tid then
          ⟨⟨403, .errorMsg "Unauthorized"⟩, st⟩
        else
          let s := get_billing_summary st.bt tid cpu
          ⟨⟨200, .summary s.tenant_id s.usage_count s.total_cost⟩, st⟩
    else
      ⟨⟨400, .errorMsg "Invalid request"⟩, st⟩

/-! ## Onboarding (`src/lambda/onboarding/onboarding_service.py`)

The two Cognito calls are external; their outcomes are supplied as
parameters.  `uuid.uuid4()` is likewise supplied as the parameter `uuid`. -/

/-- `OnboardingService.register_tenant`: generate the id, `sign_up`,
`admin_confirm_sign_up`, then write the initial record — but building the
`put_item` arguments evaluates `json.dumps({...})`, and
`onboarding_service.py` imports neither `json` nor `datetime`, so a
`NameError` is raised before the record is written; the `except` records
the error metric and re-raises.  Earlier failures of either Cognito call
are re-raised the same way. -/
def register_tenant (ok : Bool) (signUp confirm : Except String Unit)
    (uuid : String) (db : TenantDB) (tenant_name email password : String)
    (pub : List String) : Except PyErr String × TenantDB × List String :=
  match signUp with
  | .error m => (.error (.clientError m), db, record_error ok pub)
  | .ok _ =>
    match confirm with
    | .error m => (.error (.clientError m), db, record_error ok pub)
    | .ok _ => (.error (.nameError "json"), db, record_error ok pub)

/-- The parsed onboarding POST body (`tenant_name`, `email`, `password`);
`none` stands for a missing/unparseable body. -/
structure OnboardBody where
  tenant_name : String
  email : String
  password : String
  deriving DecidableEq, Repr

/-- An onboarding Lambda event. -/
structure OnboardEvent where
  httpMethod : String
  path : String
  onboardBody : Option OnboardBody

/-- Result of one onboarding handler invocation. -/
structure OnboardOut where
  response : Response
  db : TenantDB
  pub : List String

/-- `lambda_handler` of the onboarding Lambda
(`src/lambda/onboarding/handler.py`): POST `/onboarding` calls
`register_tenant`; success answers 201 with `{"tenant_id": ...}` after
`record_onboarding_success`, any exception answers 500 with
`{"error": str(e)}` after `record_error`. -/
def onboarding_lambda_handler (ok : Bool) (signUp confirm : Except String Unit)
    (uuid : String) (ev : OnboardEvent) (db : TenantDB) (pub : List String) :
    OnboardOut :=
  if ev.httpMethod == "POST" && ev.path == "/onboarding" then
    match ev.onboardBody with
    | none => ⟨⟨500, .errorMsg "body"⟩, db, record_error ok pub⟩
    | some b =>
      match register_tenant ok signUp confirm uuid db
          b.tenant_name b.email b.password pub with
      | (.error e, db1, pub1) =>
        ⟨⟨500, .errorMsg e.text⟩, db1, record_error ok pub1⟩
      | (.ok tid, db1, pub1) =>
        ⟨⟨201, .tenantId tid⟩, db1, record_onboarding_success ok pub1⟩
  else
    ⟨⟨400, .errorMsg "Invalid request"⟩, db, pub⟩

/-! ## Theorems -/

/-- C4: `get_billing_summary` returns the stored counter value as
`usage_count` (0 when no counter record exists — never an error, the
summary is still produced), `total_cost = round(usage_count * cost_per_unit, 2)`
with exactly two decimal places, and a tenant with no counter record gets
`usage_count = 0` and `total_cost = 0`. -/
theorem c4_billing_summary (bt : BillingDB) (tid : String) (cpu : ℚ) :
    (get_billing_summary bt tid cpu).tenant_id = tid ∧
    (get_billing_summary bt tid cpu).usage_count = (bt tid).getD 0 ∧
    (get_billing_summary bt tid cpu).total_cost =
      round2 ((((bt tid).getD 0 : Int) : ℚ) * cpu) ∧
    ((get_billing_summary bt tid cpu).total_cost * 100).den = 1 ∧
    (bt tid = none →
      (get_billing_summary bt tid cpu).usage_count = 0 ∧
      (get_billing_summary bt tid cpu).total_cost = 0) := by
  refine ⟨rfl, rfl, rfl, ?_, ?_⟩
  · show (round2 _ * 100).den = 1
    unfold round2
    rw [div_mul_cancel₀ _ (by norm_num : (100 : ℚ) ≠ 0)]
    exact Rat.den_intCast _
  · intro h
    refine ⟨?_, ?_⟩
    · show (bt tid).getD 0 = 0
      rw [h]; rfl
    · show round2 ((((bt tid).getD 0 : Int) : ℚ) * cpu) = 0
      rw [h]
      show round2 (((0 : Int) : ℚ) * cpu) = 0
      unfold round2
      norm_num

/-- Witness for C4 at a concrete input: a tenant with no counter record
gets a zero summary. -/
theorem c4_billing_summary_witness :
    (get_billing_summary (fun _ => none) "tenant1" (1 / 100)).usage_count = 0 ∧
    (get_billing_summary (fun _ => none) "tenant1" (1 / 100)).total_cost = 0 :=
  (c4_billing_summary (fun _ => none) "tenant1" (1 / 100)).2.2.2.2 rfl

/-- C2 fails on the code: starting from no counter record, the very first
usage event for a tenant makes `track_usage` raise (the update expression
`SET usage_count = usage_count + :val` refers to the absent attribute), so
no counter is created and the batch is answered 500 — the repository's own
`test_track_usage` expects the counter to become 10 on this exact input. -/
theorem c2_first_event_fails :
    (billing_lambda_handler true
        (.stream [⟨"INSERT", "tenant1", some "10"⟩])
        ⟨fun _ => none, [], []⟩ (1 / 100)).st.bt "tenant1" = none ∧
    (billing_lambda_handler true
        (.stream [⟨"INSERT", "tenant1", some "10"⟩])
        ⟨fun _ => none, [], []⟩ (1 / 100)).response.statusCode = 500 := by
  constructor <;> rfl

/-- C9 as stated is false: a `MODIFY` event whose `usage` field is a
negative number decrements the counter (from 10 to −5 here), which is
both a decrease and a negative value. -/
theorem c9_counterexample :
    (billing_lambda_handler true
        (.stream [⟨"MODIFY", "tenant1", some "-15"⟩])
        ⟨fun t => if t = "tenant1" then some 10 else none, [], []⟩
        (1 / 100)).st.bt "tenant1" = some (-5) ∧
    ((-5 : Int) < 10 ∧ (-5 : Int) < 0) := by
  refine ⟨?_, by decide, by decide⟩
  decide

/-- A successful `updateItemAddUsage` with a non-negative delta never
decreases any tenant's counter. -/
theorem helper_updateItemAddUsage_mono {bt : BillingDB} {tid valN : String}
    {bt1 : BillingDB} (h : updateItemAddUsage bt tid valN = .ok bt1)
    (hd : ∀ d : Int, parseIntD valN = some d → 0 ≤ d) (t : String) (v : Int)
    (hv : bt t = some v) : ∃ v2, bt1 t = some v2 ∧ v ≤ v2 := by
  unfold updateItemAddUsage at h
  cases hn : parseIntD valN with
  | none => rw [hn] at h; exact absurd h (by simp)
  | some d =>
    rw [hn] at h
    cases hcur : bt tid with
    | none => rw [hcur] at h; exact absurd h (by simp)
    | some cur =>
      rw [hcur] at h
      have hbt1 : bt1 = fun t => if t = tid then some (cur + d) else bt t := by
        cases h; rfl
      subst hbt1
      by_cases ht : t = tid
      · subst ht
        rw [hcur] at hv
        cases hv
        exact ⟨v + d, by simp, le_add_of_nonneg_right (hd d hn)⟩
      · exact ⟨v, by simp [ht, hv], le_refl v⟩

/-- Stream processing never decreases any existing counter, provided every
usage delta that parses as a number is non-negative. -/
theorem helper_processRecords_mono (ok : Bool) (recs : List StreamRecord) :
    ∀ st : BillingState,
      (∀ r ∈ recs, ∀ d : Int, parseIntD (usageString r) = some d → 0 ≤ d) →
      ∀ t v, st.bt t = some v →
        ∃ v2, (processRecords ok st recs).2.bt t = some v2 ∧ v ≤ v2 := by
  induction recs with
  | nil => intro st _ t v hv; exact ⟨v, hv, le_refl v⟩
  | cons rec rest ih =>
    intro st hd t v hv
    unfold processRecords
    by_cases hkind : (rec.eventName == "INSERT" || rec.eventName == "MODIFY") = true
    · rw [if_pos hkind]
      cases hu : updateItemAddUsage st.bt rec.keyTenantId (usageString rec) with
      | error e =>
        simp only [track_usage, hu]
        exact ⟨v, hv, le_refl v⟩
      | ok bt1 =>
        simp only [track_usage, hu]
        obtain ⟨v1, hv1, hle1⟩ := helper_updateItemAddUsage_mono hu
          (hd rec (List.mem_cons_self rec rest)) t v hv
        obtain ⟨v2, hv2, hle2⟩ := ih
          ⟨bt1, st.q ++ [(rec.keyTenantId, (parseIntD (usageString rec)).getD 0)],
            record_billing_update ok st.pub⟩
          (fun r hr => hd r (List.mem_cons_of_mem rec hr)) t v1 hv1
        exact ⟨v2, hv2, le_trans hle1 hle2⟩
    · rw [if_neg hkind]
      exact ih st (fun r hr => hd r (List.mem_cons_of_mem rec hr)) t v hv

/-- C9 amended: each tenant's `usage_count` is monotonically non-decreasing
under stream processing provided every usage delta that parses is
non-negative (the code adds whatever integer the event carries, so a
negative delta does decrement), and events whose kind is not
`INSERT`/`MODIFY` — in particular `REMOVE` — never change any counter. -/
theorem c9_monotone_nonneg_deltas (ok : Bool) (st : BillingState)
    (recs : List StreamRecord)
    (hd : ∀ r ∈ recs, ∀ d : Int, parseIntD (usageString r) = some d → 0 ≤ d) :
    (∀ t v, st.bt t = some v →
      ∃ v2, (processRecords ok st recs).2.bt t = some v2 ∧ v ≤ v2) ∧
    (∀ rec : StreamRecord, rec.eventName = "REMOVE" →
      processRecords ok st [rec] = (.ok (), st)) := by
  refine ⟨fun t v hv => helper_processRecords_mono ok recs st hd t v hv, ?_⟩
  intro rec hrec
  unfold processRecords
  rw [if_neg (by simp [hrec])]
  rfl

/-- Witness for C9 (amended) at a concrete input: one INSERT of delta 2 for
a tenant whose counter is 1 keeps the counter at least 1, and a REMOVE
event leaves the state untouched. -/
theorem c9_monotone_witness :
    (∃ v2, (processRecords true
        ⟨fun t => if t = "tenant1" then some 1 else none, [], []⟩
        [⟨"INSERT", "tenant1", some "2"⟩]).2.bt "tenant1" = some v2 ∧
        (1 : Int) ≤ v2) ∧
    processRecords true
        ⟨fun t => if t = "tenant1" then some 1 else none, [], []⟩
        [⟨"REMOVE", "tenant1", some "2"⟩] =
      (.ok (), ⟨fun t => if t = "tenant1" then some 1 else none, [], []⟩) := by
  have h := c9_monotone_nonneg_deltas true
    ⟨fun t => if t = "tenant1" then some 1 else none, [], []⟩
    [⟨"INSERT", "tenant1", some "2"⟩]
    (by
      intro r hr d hparse
      simp only [List.mem_singleton] at hr
      subst hr
      simp only [usageString, Option.getD_some] at hparse
      have : d = 2 := by
        have h2 : parseIntD "2" = some 2 := by decide
        rw [h2] at hparse
        exact (Option.some_inj.mp hparse).symm
      omega)
  refine ⟨h.1 "tenant1" 1 (by decide), ?_⟩
  have h2 := c9_monotone_nonneg_deltas true
    ⟨fun t => if t = "tenant1" then some 1 else none, [], []⟩
    [⟨"REMOVE", "tenant1", some "2"⟩]
    (by
      intro r hr d hparse
      simp only [List.mem_singleton] at hr
      subst hr
      simp only [usageString, Option.getD_some] at hparse
      have h3 : parseIntD "2" = some 2 := by decide
      rw [h3] at hparse
      have h4 : (2 : Int) = d := Option.some_inj.mp hparse
      omega)
  exact h2.2 ⟨"REMOVE", "tenant1", some "2"⟩ rfl

/-- C3 as stated is false: when the malformed event (unparseable usage
delta for tenant1) precedes the valid event (delta 5 for tenant2, whose
counter exists at 0), the exception raised for the malformed record
propagates out of the handler's `for` loop, so tenant2's counter is never
updated and the whole batch is answered 500. -/
theorem c3_counterexample :
    (billing_lambda_handler true
        (.stream [⟨"INSERT", "tenant1", some "abc"⟩,
                  ⟨"INSERT", "tenant2", some "5"⟩])
        ⟨fun t => if t = "tenant2" then some 0 else none, [], []⟩
        (1 / 100)).st.bt "tenant2" = some 0 ∧
    some (0 : Int) ≠ some (5 : Int) ∧
    (billing_lambda_handler true
        (.stream [⟨"INSERT", "tenant1", some "abc"⟩,
                  ⟨"INSERT", "tenant2", some "5"⟩])
        ⟨fun t => if t = "tenant2" then some 0 else none, [], []⟩
        (1 / 100)).response.statusCode = 500 := by
  refine ⟨by decide, by decide, by decide⟩

/-- C3 amended: batch records are processed strictly left to right and the
first failing record aborts the rest, so the valid event's counter update
survives only when the valid event precedes the malformed one — in that
order the valid tenant's counter is incremented and the batch still ends
in the malformed record's error. -/
theorem c3_valid_before_malformed (ok : Bool) (st : BillingState)
    (a b s m : String) (d v : Int)
    (hs : parseIntD s = some d) (hm : parseIntD m = none)
    (hv : st.bt b = some v) :
    (processRecords ok st [⟨"INSERT", b, some s⟩,
        ⟨"INSERT", a, some m⟩]).2.bt b = some (v + d) ∧
    ∃ e, (processRecords ok st [⟨"INSERT", b, some s⟩,
        ⟨"INSERT", a, some m⟩]).1 = .error e := by
  have hstep : updateItemAddUsage st.bt b (usageString ⟨"INSERT", b, some s⟩) =
      .ok (fun t => if t = b then some (v + d) else st.bt t) := by
    unfold updateItemAddUsage usageString
    simp only [Option.getD_some, hs, hv]
  unfold processRecords
  simp only [track_usage, hstep]
  unfold processRecords
  have hstep2 : updateItemAddUsage
      (fun t => if t = b then some (v + d) else st.bt t) a
      (usageString ⟨"INSERT", a, some m⟩) =
      .error (.clientError
        "ValidationException: A value provided cannot be converted into a number") := by
    unfold updateItemAddUsage usageString
    simp only [Option.getD_some, hm]
  simp only [track_usage, hstep2]
  unfold processRecords
  exact ⟨by simp, _, rfl⟩

/-- Witness for C3 (amended) at a concrete input: valid event for tenant2
first, malformed event for tenant1 second. -/
theorem c3_valid_before_malformed_witness :
    (processRecords true
        ⟨fun t => if t = "tenant2" then some 0 else none, [], []⟩
        [⟨"INSERT", "tenant2", some "5"⟩,
         ⟨"INSERT", "tenant1", some "abc"⟩]).2.bt "tenant2" = some (0 + 5) ∧
    ∃ e, (processRecords true
        ⟨fun t => if t = "tenant2" then some 0 else none, [], []⟩
        [⟨"INSERT", "tenant2", some "5"⟩,
         ⟨"INSERT", "tenant1", some "abc"⟩]).1 = .error e :=
  c3_valid_before_malformed true
    ⟨fun t => if t = "tenant2" then some 0 else none, [], []⟩
    "tenant1" "tenant2" "5" "abc" 5 0 (by decide) (by decide) (by decide)

/-- C1 as stated is false on the data plane: a GET for tenant B's item by
a caller whose claims carry tenant A is rejected — before any store access
and without returning B's data — but with HTTP status 500 (the handler's
generic exception branch), not an access-denied 403 status. -/
theorem c1_counterexample :
    (tenant_lambda_handler true
        ⟨"GET", routeGetData,
          [("tenant_id", "tenantB"), ("item_id", "item1")],
          [("tenant_id", "tenantA")], none⟩
        (fun _ _ => none) []).response.statusCode = 500 ∧
    (tenant_lambda_handler true
        ⟨"GET", routeGetData,
          [("tenant_id", "tenantB"), ("item_id", "item1")],
          [("tenant_id", "tenantA")], none⟩
        (fun _ _ => none) []).response.body =
      .errorMsg "Unauthorized tenant access" ∧
    (500 : Nat) ≠ 403 := by
  refine ⟨by decide, by decide, by decide⟩

/-- C1 amended: for tenants A ≠ B, a caller authenticated as A is rejected
on every operation scoped to B before any store access and never receives
B's data — the service methods raise the authorization error with the
store untouched and the result independent of the store contents, and the
billing GET answers 403 before reading the counter — but the data-plane
rejection surfaces as a 500 server error, not a distinct access-denied
status. -/
theorem c1_isolation (ok : Bool) (user : Claims) (A B : String)
    (hA : dictGet user "tenant_id" = some A) (hne : A ≠ B) :
    (∀ (db : TenantDB) (iid : String) (pub : List String),
      get_tenant_data ok db B iid user pub =
        (.error (.valueError "Unauthorized tenant access"),
          record_error ok pub)) ∧
    (∀ (db : TenantDB) (iid data : String) (pub : List String),
      store_tenant_data ok db B iid data user pub =
        (.error (.valueError "Unauthorized tenant access"), db,
          record_error ok pub)) ∧
    (∀ (st : BillingState) (cpu : ℚ),
      billing_lambda_handler ok (.api "GET" routeBilling [("tenant_id", B)]
          user) st cpu =
        ⟨⟨403, .errorMsg "Unauthorized"⟩, st⟩) := by
  have hmis : dictGet user "tenant_id" ≠ some B := by
    rw [hA]; simp [hne]
  refine ⟨?_, ?_, ?_⟩
  · intro db iid pub
    unfold get_tenant_data
    rw [if_pos hmis]
  · intro db iid data pub
    unfold store_tenant_data
    rw [if_pos hmis]
  · intro st cpu
    have hsc : strContains routeBilling routeBilling = true := by decide
    have hparam : dictIndex [("tenant_id", B)] "tenant_id" = .ok B := by
      unfold dictIndex dictGet
      simp
    simp only [billing_lambda_handler, hsc, hparam, Bool.and_true,
      Bool.true_and, beq_self_eq_true, if_true]
    rw [if_pos hmis]

/-- Witness for C1 (amended) at concrete tenants A = tenantA, B = tenantB. -/
theorem c1_isolation_witness :
    get_tenant_data true (fun _ _ => none) "tenantB" "item1"
        [("tenant_id", "tenantA")] [] =
      (.error (.valueError "Unauthorized tenant access"),
        record_error true []) ∧
    store_tenant_data true (fun _ _ => none) "tenantB" "item1" "payload"
        [("tenant_id", "tenantA")] [] =
      (.error (.valueError "Unauthorized tenant access"), fun _ _ => none,
        record_error true []) ∧
    billing_lambda_handler true (.api "GET" routeBilling
        [("tenant_id", "tenantB")] [("tenant_id", "tenantA")])
        ⟨fun _ => none, [], []⟩ (1 / 100) =
      ⟨⟨403, .errorMsg "Unauthorized"⟩, ⟨fun _ => none, [], []⟩⟩ := by
  have h := c1_isolation true [("tenant_id", "tenantA")] "tenantA" "tenantB"
    (by decide) (by decide)
  exact ⟨h.1 (fun _ _ => none) "item1" [],
    h.2.1 (fun _ _ => none) "item1" "payload" [],
    h.2.2 ⟨fun _ => none, [], []⟩ (1 / 100)⟩

/-- C5 fails on the code: `tenant_service.py` never imports `json`, so
`store_tenant_data` with fully authorized claims raises
`NameError` (at `json.dumps(data)`) before the store write — there is no
successful store to read back, and the handler answers the write with 500
carrying the NameError text instead of 201. -/
theorem c5_store_raises_nameerror :
    (store_tenant_data true (fun _ _ => none) "tenant1" "item1" "payload"
        [("tenant_id", "tenant1")] []).1 = .error (.nameError "json") ∧
    (store_tenant_data true (fun _ _ => none) "tenant1" "item1" "payload"
        [("tenant_id", "tenant1")] []).2.1 "tenant1" "item1" = none ∧
    (tenant_lambda_handler true
        ⟨"POST", routePostData, [("tenant_id", "tenant1")],
          [("tenant_id", "tenant1")], some ⟨"item1", "payload"⟩⟩
        (fun _ _ => none) []).response =
      ⟨500, .errorMsg (PyErr.nameError "json").text⟩ := by
  refine ⟨rfl, rfl, by decide⟩

/-- C6 fails on the code: with both Cognito calls succeeding,
`register_tenant("Acme", ...)` raises `NameError` while building the
initial-record `put_item` arguments (`onboarding_service.py` imports
neither `json` nor `datetime`), so the handler answers 500, no
`tenant_info` record is written, and no tenant_id is returned. -/
theorem c6_onboarding_raises_nameerror :
    (onboarding_lambda_handler true (.ok ()) (.ok ()) "7b4e8d2a-uuid"
        ⟨"POST", "/onboarding", some ⟨"Acme", "admin@acme.com", "pw"⟩⟩
        (fun _ _ => none) []).response =
      ⟨500, .errorMsg (PyErr.nameError "json").text⟩ ∧
    (onboarding_lambda_handler true (.ok ()) (.ok ()) "7b4e8d2a-uuid"
        ⟨"POST", "/onboarding", some ⟨"Acme", "admin@acme.com", "pw"⟩⟩
        (fun _ _ => none) []).db "7b4e8d2a-uuid" "tenant_info" = none := by
  refine ⟨by decide, by decide⟩

/-- C7 as stated is false: a store dependency failure (here DynamoDB
rejecting a malformed usage number) is answered with a 500 whose body is
exactly the raw exception text `str(e)`. -/
theorem c7_counterexample :
    (billing_lambda_handler true
        (.stream [⟨"INSERT", "tenant1", some "abc"⟩])
        ⟨fun _ => none, [], []⟩ (1 / 100)).response.statusCode = 500 ∧
    (billing_lambda_handler true
        (.stream [⟨"INSERT", "tenant1", some "abc"⟩])
        ⟨fun _ => none, [], []⟩ (1 / 100)).response.body =
      .errorMsg (PyErr.clientError
        "ValidationException: A value provided cannot be converted into a number").text := by
  refine ⟨by decide, by decide⟩

/-- C7 amended: every dependency failure is surfaced as an opaque-looking
500 status, but each handler places the raw exception text `str(e)` in the
response body (`{"error": str(e)}`), for the billing stream path, the
tenant-data read path and the onboarding path alike. -/
theorem c7_error_bodies_echo (ok : Bool) :
    (∀ (st : BillingState) (recs : List StreamRecord) (e : PyErr)
        (st1 : BillingState) (cpu : ℚ),
      processRecords ok st recs = (.error e, st1) →
      (billing_lambda_handler ok (.stream recs) st cpu).response =
        ⟨500, .errorMsg e.text⟩) ∧
    (∀ (db : TenantDB) (tid iid : String) (user : Claims)
        (pub : List String) (e : PyErr) (pub1 : List String),
      get_tenant_data ok db tid iid user pub = (.error e, pub1) →
      (tenant_lambda_handler ok
          ⟨"GET", routeGetData, [("tenant_id", tid), ("item_id", iid)],
            user, none⟩ db pub).response = ⟨500, .errorMsg e.text⟩) ∧
    (∀ (su cf : Except String Unit) (uuid : String) (db : TenantDB)
        (b : OnboardBody) (pub : List String) (e : PyErr) (db1 : TenantDB)
        (pub1 : List String),
      register_tenant ok su cf uuid db b.tenant_name b.email b.password pub =
        (.error e, db1, pub1) →
      (onboarding_lambda_handler ok su cf uuid
          ⟨"POST", "/onboarding", some b⟩ db pub).response =
        ⟨500, .errorMsg e.text⟩) := by
  refine ⟨?_, ?_, ?_⟩
  · intro st recs e st1 cpu h
    simp only [billing_lambda_handler, h]
  · intro db tid iid user pub e pub1 h
    have hroute : ("GET" == "GET" && strContains routeGetData routeGetData) =
        true := by decide
    have h1 : dictIndex [("tenant_id", tid), ("item_id", iid)] "tenant_id" =
        .ok tid := by
      simp [dictIndex, dictGet, List.find?]
    have h2 : dictIndex [("tenant_id", tid), ("item_id", iid)] "item_id" =
        .ok iid := by
      simp [dictIndex, dictGet, List.find?]
    simp only [tenant_lambda_handler, hroute, if_true, h1, h2, h]
  · intro su cf uuid db b pub e db1 pub1 h
    have hroute : ("POST" == "POST" && "/onboarding" == "/onboarding") =
        true := by decide
    simp only [onboarding_lambda_handler, hroute, if_true, h]

/-- Witness for C7 (amended) at a concrete input: a malformed usage number
in a stream batch ends in a 500 whose body carries the DynamoDB
exception text. -/
theorem c7_error_bodies_echo_witness :
    (billing_lambda_handler true
        (.stream [⟨"INSERT", "tenant1", some "abc"⟩])
        ⟨fun _ => none, [], []⟩ (1 / 100)).response =
      ⟨500, .errorMsg
        "ValidationException: A value provided cannot be converted into a number"⟩ :=
  (c7_error_bodies_echo true).1 ⟨fun _ => none, [], []⟩
    [⟨"INSERT", "tenant1", some "abc"⟩]
    (.clientError
      "ValidationException: A value provided cannot be converted into a number")
    ⟨fun _ => none, [], ["Errors"]⟩ (1 / 100) rfl

/-- C8 as stated is false: a failing tenant-data read (tenant mismatch)
publishes the `Errors` metric twice — once in the service except-block
before the re-raise and once more in the handler except-block. -/
theorem c8_counterexample :
    (tenant_lambda_handler true
        ⟨"GET", routeGetData,
          [("tenant_id", "tenantB"), ("item_id", "item1")],
          [("tenant_id", "tenantA")], none⟩
        (fun _ _ => none) []).pub.count "Errors" = 2 ∧
    (2 : Nat) ≠ 1 := by
  refine ⟨by decide, by decide⟩

/-- C8 amended: an error raised in a service method and caught again in
the handler increments the error metric twice — once per except-block —
both for a failing tenant-data read and for a failing usage-tracking
stream record. -/
theorem c8_error_metric_twice :
    (∀ (db : TenantDB) (tid iid : String) (user : Claims)
        (pub : List String),
      dictGet user "tenant_id" ≠ some tid →
      (tenant_lambda_handler true
          ⟨"GET", routeGetData, [("tenant_id", tid), ("item_id", iid)],
            user, none⟩ db pub).pub =
        record_error true (record_error true pub)) ∧
    (∀ (st : BillingState) (rec : StreamRecord) (cpu : ℚ),
      rec.eventName = "INSERT" →
      parseIntD (usageString rec) = none →
      (billing_lambda_handler true (.stream [rec]) st cpu).st.pub =
        record_error true (record_error true st.pub)) := by
  refine ⟨?_, ?_⟩
  · intro db tid iid user pub hmis
    have hroute : ("GET" == "GET" && strContains routeGetData routeGetData) =
        true := by decide
    have h1 : dictIndex [("tenant_id", tid), ("item_id", iid)] "tenant_id" =
        .ok tid := by
      simp [dictIndex, dictGet, List.find?]
    have h2 : dictIndex [("tenant_id", tid), ("item_id", iid)] "item_id" =
        .ok iid := by
      simp [dictIndex, dictGet, List.find?]
    have hserv : get_tenant_data true db tid iid user pub =
        (.error (.valueError "Unauthorized tenant access"),
          record_error true pub) := by
      unfold get_tenant_data
      rw [if_pos hmis]
    simp only [tenant_lambda_handler, hroute, if_true, h1, h2, hserv]
  · intro st rec cpu hkind hparse
    have hupd : updateItemAddUsage st.bt rec.keyTenantId (usageString rec) =
        .error (.clientError
          "ValidationException: A value provided cannot be converted into a number") := by
      unfold updateItemAddUsage
      rw [hparse]
    have hproc : processRecords true st [rec] =
        (.error (.clientError
            "ValidationException: A value provided cannot be converted into a number"),
          ⟨st.bt, st.q, record_error true st.pub⟩) := by
      unfold processRecords
      rw [if_pos (by simp [hkind])]
      simp only [track_usage, hupd]
    simp only [billing_lambda_handler, hproc]

/-- Witness for C8 (amended) at concrete inputs: the mismatch read and the
malformed stream record each publish `Errors` twice. -/
theorem c8_error_metric_twice_witness :
    (tenant_lambda_handler true
        ⟨"GET", routeGetData,
          [("tenant_id", "tenantB"), ("item_id", "item1")],
          [("tenant_id", "tenantA")], none⟩
        (fun _ _ => none) []).pub =
      record_error true (record_error true []) ∧
    (billing_lambda_handler true
        (.stream [⟨"INSERT", "tenant1", some "abc"⟩])
        ⟨fun _ => none, [], []⟩ (1 / 100)).st.pub =
      record_error true (record_error true []) :=
  ⟨c8_error_metric_twice.1 (fun _ _ => none) "tenantB" "item1"
      [("tenant_id", "tenantA")] [] (by decide),
    c8_error_metric_twice.2 ⟨fun _ => none, [], []⟩
      ⟨"INSERT", "tenant1", some "abc"⟩ (1 / 100) rfl (by decide)⟩

/-- The non-metric components of `get_tenant_data` do not depend on the
metric backend or on the previously published metrics. -/
theorem helper_get_tenant_data_proj (ok okx : Bool) (db : TenantDB)
    (tid iid : String) (user : Claims) (pub pubx : List String) :
    (get_tenant_data ok db tid iid user pub).1 =
      (get_tenant_data okx db tid iid user pubx).1 := by
  unfold get_tenant_data
  by_cases h : dictGet user "tenant_id" ≠ some tid
  · rw [if_pos h, if_pos h]
  · rw [if_neg h, if_neg h]
    cases hm : ddbGetItem db tid iid <;> rfl

/-- The non-metric components of `store_tenant_data` do not depend on the
metric backend or on the previously published metrics. -/
theorem helper_store_tenant_data_proj (ok okx : Bool) (db : TenantDB)
    (tid iid data : String) (user : Claims) (pub pubx : List String) :
    (store_tenant_data ok db tid iid data user pub).1 =
      (store_tenant_data okx db tid iid data user pubx).1 ∧
    (store_tenant_data ok db tid iid data user pub).2.1 =
      (store_tenant_data okx db tid iid data user pubx).2.1 := by
  unfold store_tenant_data
  by_cases h : dictGet user "tenant_id" ≠ some tid
  · rw [if_pos h, if_pos h]; exact ⟨rfl, rfl⟩
  · rw [if_neg h, if_neg h]; exact ⟨rfl, rfl⟩

/-- The non-metric components of `track_usage` do not depend on the metric
backend or on the previously published metrics. -/
theorem helper_track_usage_proj (ok okx : Bool) (bt : BillingDB) (q : Queue)
    (pub pubx : List String) (tid : String) (rec : StreamRecord) :
    (track_usage ok ⟨bt, q, pub⟩ tid rec).1 =
      (track_usage okx ⟨bt, q, pubx⟩ tid rec).1 ∧
    (track_usage ok ⟨bt, q, pub⟩ tid rec).2.bt =
      (track_usage okx ⟨bt, q, pubx⟩ tid rec).2.bt ∧
    (track_usage ok ⟨bt, q, pub⟩ tid rec).2.q =
      (track_usage okx ⟨bt, q, pubx⟩ tid rec).2.q := by
  cases hu : updateItemAddUsage bt tid (usageString rec) <;>
    simp [track_usage, hu]

/-- The non-metric components of the stream loop do not depend on the
metric backend or on the previously published metrics. -/
theorem helper_processRecords_proj (recs : List StreamRecord) :
    ∀ (ok okx : Bool) (bt : BillingDB) (q : Queue) (pub pubx : List String),
    (processRecords ok ⟨bt, q, pub⟩ recs).1 =
      (processRecords okx ⟨bt, q, pubx⟩ recs).1 ∧
    (processRecords ok ⟨bt, q, pub⟩ recs).2.bt =
      (processRecords okx ⟨bt, q, pubx⟩ recs).2.bt ∧
    (processRecords ok ⟨bt, q, pub⟩ recs).2.q =
      (processRecords okx ⟨bt, q, pubx⟩ recs).2.q := by
  induction recs with
  | nil => intro ok okx bt q pub pubx; exact ⟨rfl, rfl, rfl⟩
  | cons rec rest ih =>
    intro ok okx bt q pub pubx
    unfold processRecords
    by_cases hkind : (rec.eventName == "INSERT" || rec.eventName == "MODIFY") =
        true
    · rw [if_pos hkind, if_pos hkind]
      simp only [track_usage]
      cases hu : updateItemAddUsage bt rec.keyTenantId (usageString rec) with
      | error e => simp [hu]
      | ok bt1 =>
        simp only [hu]
        exact ih ok okx bt1
          (q ++ [(rec.keyTenantId, (parseIntD (usageString rec)).getD 0)])
          (record_billing_update ok pub) (record_billing_update okx pubx)
    · rw [if_neg hkind, if_neg hkind]
      exact ih ok okx bt q pub pubx

/-- C10: `_put_metric` swallows every publish failure (on a broken backend
it returns normally having published nothing; on a healthy one it appends
the metric), and a metrics-backend failure never changes any handler's
response or any store/queue effect — only the list of published metrics. -/
theorem c10_metric_backend_never_fails_ops :
    (∀ (pub : List String) (name : String),
      putMetric false pub name = pub ∧ putMetric true pub name = pub ++ [name]) ∧
    (∀ (ev : ApiEvent) (db : TenantDB) (pub : List String),
      (tenant_lambda_handler false ev db pub).response =
        (tenant_lambda_handler true ev db pub).response ∧
      (tenant_lambda_handler false ev db pub).db =
        (tenant_lambda_handler true ev db pub).db) ∧
    (∀ (ev : BillingEvent) (st : BillingState) (cpu : ℚ),
      (billing_lambda_handler false ev st cpu).response =
        (billing_lambda_handler true ev st cpu).response ∧
      (billing_lambda_handler false ev st cpu).st.bt =
        (billing_lambda_handler true ev st cpu).st.bt ∧
      (billing_lambda_handler false ev st cpu).st.q =
        (billing_lambda_handler true ev st cpu).st.q) ∧
    (∀ (su cf : Except String Unit) (uuid : String) (ev : OnboardEvent)
        (db : TenantDB) (pub : List String),
      (onboarding_lambda_handler false su cf uuid ev db pub).response =
        (onboarding_lambda_handler true su cf uuid ev db pub).response ∧
      (onboarding_lambda_handler false su cf uuid ev db pub).db =
        (onboarding_lambda_handler true su cf uuid ev db pub).db) := by
  refine ⟨fun pub name => ⟨rfl, rfl⟩, ?_, ?_, ?_⟩
  · intro ev db pub
    by_cases hget : (ev.httpMethod == "GET" &&
        strContains ev.path routeGetData) = true
    · cases h1 : dictIndex ev.pathParameters "tenant_id" with
      | error e =>
        cases h2 : dictIndex ev.pathParameters "item_id" <;>
          refine ⟨?_, ?_⟩ <;> simp [tenant_lambda_handler, hget, h1, h2]
      | ok tid =>
        cases h2 : dictIndex ev.pathParameters "item_id" with
        | error e =>
          refine ⟨?_, ?_⟩ <;> simp [tenant_lambda_handler, hget, h1, h2]
        | ok iid =>
          have hproj := helper_get_tenant_data_proj false true db tid iid
            ev.claims pub pub
          cases hf : get_tenant_data false db tid iid ev.claims pub with
          | mk rf pf =>
          cases ht : get_tenant_data true db tid iid ev.claims pub with
          | mk rt pt =>
          rw [hf, ht] at hproj
          simp only at hproj
          subst hproj
          cases rf with
          | error e =>
            refine ⟨?_, ?_⟩ <;>
              simp [tenant_lambda_handler, hget, h1, h2, hf, ht]
          | ok it =>
            cases it <;> refine ⟨?_, ?_⟩ <;>
              simp [tenant_lambda_handler, hget, h1, h2, hf, ht]
    · by_cases hpost : (ev.httpMethod == "POST" &&
          strContains ev.path routePostData) = true
      · cases h1 : dictIndex ev.pathParameters "tenant_id" with
        | error e =>
          refine ⟨?_, ?_⟩ <;>
            simp [tenant_lambda_handler, hget, hpost, h1]
        | ok tid =>
          cases hb : ev.storeBody with
          | none =>
            refine ⟨?_, ?_⟩ <;>
              simp [tenant_lambda_handler, hget, hpost, h1, hb]
          | some b =>
            have hproj := helper_store_tenant_data_proj false true db tid
              b.item_id b.data ev.claims pub pub
            cases hf : store_tenant_data false db tid b.item_id b.data
                ev.claims pub with
            | mk rf rest_f =>
            cases ht : store_tenant_data true db tid b.item_id b.data
                ev.claims pub with
            | mk rt rest_t =>
            rw [hf, ht] at hproj
            simp only at hproj
            obtain ⟨hr, hdb⟩ := hproj
            subst hr
            cases rf with
            | error e =>
              refine ⟨?_, ?_⟩ <;>
                simp [tenant_lambda_handler, hget, hpost, h1, hb, hf, ht, hdb]
            | ok u =>
              refine ⟨?_, ?_⟩ <;>
                simp [tenant_lambda_handler, hget, hpost, h1, hb, hf, ht, hdb]
      · refine ⟨?_, ?_⟩ <;> simp [tenant_lambda_handler, hget, hpost]
  · intro ev st cpu
    cases ev with
    | stream recs =>
      have hproj := helper_processRecords_proj recs false true st.bt st.q
        st.pub st.pub
      have hst : (⟨st.bt, st.q, st.pub⟩ : BillingState) = st := rfl
      rw [hst] at hproj
      cases hf : processRecords false st recs with
      | mk rf s1f =>
      cases ht : processRecords true st recs with
      | mk rt s1t =>
      rw [hf, ht] at hproj
      simp only at hproj
      obtain ⟨hr, hbt, hq⟩ := hproj
      subst hr
      cases rf with
      | error e =>
        refine ⟨?_, ?_, ?_⟩ <;>
          simp [billing_lambda_handler, hf, ht, hbt, hq]
      | ok u =>
        refine ⟨?_, ?_, ?_⟩ <;>
          simp [billing_lambda_handler, hf, ht, hbt, hq]
    | api m p params claims =>
      by_cases hroute : (m == "GET" && strContains p routeBilling) = true
      · cases h1 : dictIndex params "tenant_id" with
        | error e =>
          refine ⟨?_, ?_, ?_⟩ <;> simp [billing_lambda_handler, hroute, h1]
        | ok tid =>
          by_cases hmis : dictGet claims "tenant_id" ≠ some tid
          · refine ⟨?_, ?_, ?_⟩ <;>
              simp [billing_lambda_handler, hroute, h1, hmis]
          · refine ⟨?_, ?_, ?_⟩ <;>
              simp [billing_lambda_handler, hroute, h1, hmis]
      · refine ⟨?_, ?_, ?_⟩ <;> simp [billing_lambda_handler, hroute]
  · intro su cf uuid ev db pub
    by_cases hroute : (ev.httpMethod == "POST" && ev.path == "/onboarding") =
        true
    · cases hb : ev.onboardBody with
      | none =>
        refine ⟨?_, ?_⟩ <;> simp [onboarding_lambda_handler, hroute, hb]
      | some b =>
        cases su with
        | error m =>
          refine ⟨?_, ?_⟩ <;>
            simp [onboarding_lambda_handler, register_tenant, hroute, hb]
        | ok u =>
          cases cf with
          | error m =>
            refine ⟨?_, ?_⟩ <;>
              simp [onboarding_lambda_handler, register_tenant, hroute, hb]
          | ok u2 =>
            refine ⟨?_, ?_⟩ <;>
              simp [onboarding_lambda_handler, register_tenant, hroute, hb]
    · refine ⟨?_, ?_⟩ <;> simp [onboarding_lambda_handler, hroute]

end SaaS
